import Mathlib

/-!
Verification of the Hyperliquid SDK connection manager (src client class).

The development is a shallow embedding of the TypeScript class
HyperliquidClient.  The mutable instance fields become the structure
`Hyperliquid.HyperliquidClient`; transport objects (socket.io sockets) and
timers are identified by numeric ids, and a `World` record adds the
environment bookkeeping needed to state liveness of transports: the set of
live transport ids, the set of pending reconnect timers (with their delay),
and the state of a pending authenticate handshake (its one-shot listeners,
its timeout and its promise).  Each method and each installed transport
listener of the source becomes a function `World -> World × List Emission`,
where an `Emission` is one caller-facing logical event delivered through
the private emit method.  An `Action` is either a caller call (connect,
disconnect, authenticate) or an environment event (a server message on a
live socket, a timer firing), and `step`/`run` drive the machine.

Numbers that are JS floats in the source (the backoff delay) are modelled
as rationals; exponentiation by 1.5 is the exact rational 3/2.
-/

namespace Hyperliquid

/-- Connection state enum, from types.ts (ConnectionState). -/
inductive ConnectionState where
  | disconnected
  | connecting
  | connected
  | reconnecting
  | error
deriving DecidableEq, Repr

/-- Network enum, from types.ts (Network). -/
inductive Network where
  | mainnet
  | testnet
deriving DecidableEq, Repr

/-- Resolved constructor options, from client.ts (InternalOptions).
The reconnect delay is a JS number, modelled as a rational. -/
structure InternalOptions where
  network : Network
  url : String
  autoReconnect : Bool
  reconnectDelay : ℚ
  maxReconnectAttempts : Nat
  debug : Bool
deriving DecidableEq, Repr

/-- The mutable instance fields of the HyperliquidClient class.
socket and reconnectTimer hold ids of the referenced transport and timer
(none models null). -/
structure HyperliquidClient where
  socket : Option Nat
  state : ConnectionState
  reconnectAttempts : Nat
  reconnectTimer : Option Nat
  authenticatedWallet : Option String
deriving DecidableEq, Repr

/-- Outcome of a JS promise: pending, resolved, or rejected with a message.
A settled promise ignores later resolve and reject calls. -/
inductive PromiseState where
  | pending
  | resolved
  | rejected (msg : String)
deriving DecidableEq, Repr

/-- A pending authenticate handshake, from the authenticate method: two
one-shot listeners installed with socket.once, a 10 second timeout, and the
promise returned to the caller.  sid is the socket the listeners were
installed on. -/
structure AuthSession where
  sid : Nat
  onceAuthenticated : Bool
  onceAuthError : Bool
  timeoutPending : Bool
  promise : PromiseState
deriving DecidableEq, Repr

/-- One caller-facing logical event, as delivered by the private emit
method.  Payload shapes follow the emit call sites in client.ts: the
connected event carries the server ack data, whose declared shape at the
listener is a record with the single field clientId. -/
inductive Emission where
  | stateChange (s : ConnectionState)
  | connectedEv (clientId : String)
  | disconnectedEv (reason : String)
  | errorEv (code message : String)
  | reconnectingEv (attempt maxAttempts : Nat)
  | authenticatedEv (wallet : String)
deriving DecidableEq, Repr

/-- The machine state: the client instance plus environment bookkeeping.
liveTransports lists transport ids that were created by io() and have not
yet failed, disconnected, or been torn down; pendingTimers lists scheduled
reconnect timers with their computed delay; auth is the pending
authenticate handshake, if any; nextId is a fresh-id source. -/
structure World where
  client : HyperliquidClient
  options : InternalOptions
  liveTransports : List Nat
  pendingTimers : List (Nat × ℚ)
  nextId : Nat
  auth : Option AuthSession
deriving DecidableEq, Repr

/-- Caller calls and environment events that drive the machine.  Server
events name the socket id they arrive on; they are delivered only while
that socket is live. -/
inductive Action where
  | connect
  | disconnect
  | srvConnected (sid : Nat) (clientId : String)
  | srvConnectError (sid : Nat) (msg : String)
  | srvDisconnect (sid : Nat) (reason : String)
  | srvError (sid : Nat) (code msg : String)
  | timerFire (tid : Nat)
  | authenticate (wallet : String)
  | srvAuthenticated (sid : Nat) (wallet : String)
  | srvAuthError (sid : Nat) (msg : String)
  | authTimeoutFire
deriving DecidableEq, Repr

/-- private setState(state): sets the field and emits a stateChange event
(lines 777-780). -/
def setState (w : World) (s : ConnectionState) : World × List Emission :=
  ({ w with client := { w.client with state := s } }, [Emission.stateChange s])

/-- private scheduleReconnect() (lines 804-834).  If the attempt counter
has reached the maximum: set state error and emit a terminal error event,
scheduling nothing.  Otherwise: increment the counter, set state
reconnecting, emit a reconnecting event, and schedule a timer with delay
reconnectDelay * 1.5 ^ (attempts - 1); the timer id is stored in the
reconnectTimer field. -/
def scheduleReconnect (w : World) : World × List Emission :=
  if w.options.maxReconnectAttempts ≤ w.client.reconnectAttempts then
    let s := setState w ConnectionState.error
    (s.1, s.2 ++ [Emission.errorEv "MAX_RECONNECT_ATTEMPTS"
                    "Maximum reconnection attempts reached"])
  else
    let w1 : World :=
      { w with client :=
          { w.client with reconnectAttempts := w.client.reconnectAttempts + 1 } }
    let s := setState w1 ConnectionState.reconnecting
    let delay : ℚ :=
      w1.options.reconnectDelay * (3 / 2 : ℚ) ^ (w1.client.reconnectAttempts - 1)
    let tid := s.1.nextId
    ({ s.1 with
        client := { s.1.client with reconnectTimer := some tid },
        pendingTimers := (tid, delay) :: s.1.pendingTimers,
        nextId := s.1.nextId + 1 },
     s.2 ++ [Emission.reconnectingEv w1.client.reconnectAttempts
               w1.options.maxReconnectAttempts])

/-- private handleConnectionError(error) (lines 782-790): emits an error
event with code CONNECTION_ERROR, then either delegates to the reconnect
policy or settles in state error. -/
def handleConnectionError (w : World) (msg : String) : World × List Emission :=
  let e0 := [Emission.errorEv "CONNECTION_ERROR" msg]
  if w.options.autoReconnect then
    let s := scheduleReconnect w
    (s.1, e0 ++ s.2)
  else
    let s := setState w ConnectionState.error
    (s.1, e0 ++ s.2)

/-- private handleDisconnect(reason) (lines 792-802): sets state
disconnected, emits a disconnected event, and reconnects unless the
disconnect was initiated by the caller.  Note that the authenticated
wallet is not cleared here. -/
def handleDisconnect (w : World) (reason : String) : World × List Emission :=
  let s := setState w ConnectionState.disconnected
  let e := s.2 ++ [Emission.disconnectedEv reason]
  if s.1.options.autoReconnect && (reason != "io client disconnect") then
    let s2 := scheduleReconnect s.1
    (s2.1, e ++ s2.2)
  else (s.1, e)

/-- connect() (lines 418-461): a no-op while already connected or
connecting; otherwise sets state connecting and opens a fresh transport
via io(), which becomes the (only) referenced socket, with all listeners
installed on it.  The promise resolution is driven by the later server
events. -/
def connect (w : World) : World × List Emission :=
  if w.client.state = ConnectionState.connected ∨
     w.client.state = ConnectionState.connecting then
    (w, [])
  else
    let s := setState w ConnectionState.connecting
    let sid := s.1.nextId
    ({ s.1 with
        client := { s.1.client with socket := some sid },
        liveTransports := sid :: s.1.liveTransports,
        nextId := s.1.nextId + 1 },
     s.2)

/-- disconnect() (lines 466-480): cancels a pending reconnect timer,
tears down the transport if present, sets state disconnected and clears
the authenticated wallet.  The method body has no throw site. -/
def disconnect (w : World) : World × List Emission :=
  let w1 : World :=
    match w.client.reconnectTimer with
    | some tid =>
        { w with
            pendingTimers := w.pendingTimers.filter (fun p => p.1 != tid),
            client := { w.client with reconnectTimer := none } }
    | none => w
  let w2 : World :=
    match w1.client.socket with
    | some sid =>
        { w1 with
            liveTransports := w1.liveTransports.filter (fun t => t != sid),
            client := { w1.client with socket := none } }
    | none => w1
  let s := setState w2 ConnectionState.disconnected
  ({ s.1 with client := { s.1.client with authenticatedWallet := none } }, s.2)

/-- Listener for the server connected ack (lines 432-438): sets state
connected, resets the reconnect counter to 0, and re-emits the ack data
unchanged as the connected logical event. -/
def onSrvConnected (w : World) (clientId : String) : World × List Emission :=
  let s := setState w ConnectionState.connected
  ({ s.1 with client := { s.1.client with reconnectAttempts := 0 } },
   s.2 ++ [Emission.connectedEv clientId])

/-- Listener for connect_error (lines 440-446): the failed transport is no
longer live; the client delegates to handleConnectionError. -/
def onSrvConnectError (w : World) (sid : Nat) (msg : String) : World × List Emission :=
  let w1 : World := { w with liveTransports := w.liveTransports.filter (fun t => t != sid) }
  handleConnectionError w1 msg

/-- Listener for transport disconnect (lines 448-451): the transport is no
longer live; the client delegates to handleDisconnect. -/
def onSrvDisconnect (w : World) (sid : Nat) (reason : String) : World × List Emission :=
  let w1 : World := { w with liveTransports := w.liveTransports.filter (fun t => t != sid) }
  handleDisconnect w1 reason

/-- authenticate(wallet) (lines 570-593), request phase: after the
ensureConnected guard, installs the two one-shot listeners and the 10
second timeout, sends the authenticate message, and returns a pending
promise.  When the guard fails the async method rejects and the state is
untouched.  A second concurrent authenticate call is not modelled (the
spec flags it as unverified); it leaves the world unchanged here. -/
def authenticateCall (w : World) (_wallet : String) : World × List Emission :=
  match w.client.socket with
  | none => (w, [])
  | some sid =>
      if w.client.state = ConnectionState.connected then
        match w.auth with
        | some _ => (w, [])
        | none =>
            let ses : AuthSession :=
              { sid := sid, onceAuthenticated := true, onceAuthError := true,
                timeoutPending := true, promise := PromiseState.pending }
            ({ w with auth := some ses }, [])
      else (w, [])

/-- The 10 second authentication timeout firing (lines 574-576): rejects
the pending promise.  The one-shot listeners are not removed. -/
def onAuthTimeout (w : World) : World × List Emission :=
  match w.auth with
  | none => (w, [])
  | some s =>
      if s.timeoutPending then
        let p := match s.promise with
          | PromiseState.pending => PromiseState.rejected "Authentication timeout"
          | q => q
        ({ w with auth := some ({ s with timeoutPending := false, promise := p }) }, [])
      else (w, [])

/-- One-shot listener for the authenticated server message (lines
578-584): clears the timeout, records the wallet, emits the authenticated
event and resolves the promise if still pending.  Being a once listener it
consumes itself; the auth:error once listener stays installed. -/
def onSrvAuthenticated (w : World) (sid : Nat) (wallet : String) : World × List Emission :=
  match w.auth with
  | none => (w, [])
  | some s =>
      if s.sid = sid ∧ s.onceAuthenticated then
        let p := match s.promise with
          | PromiseState.pending => PromiseState.resolved
          | q => q
        ({ w with
            client := { w.client with authenticatedWallet := some wallet },
            auth := some { s with onceAuthenticated := false, timeoutPending := false, promise := p } },
         [Emission.authenticatedEv wallet])
      else (w, [])

/-- One-shot listener for the auth:error server message (lines 586-589):
clears the timeout and rejects the promise if still pending.  No logical
event is emitted. -/
def onSrvAuthError (w : World) (sid : Nat) (msg : String) : World × List Emission :=
  match w.auth with
  | none => (w, [])
  | some s =>
      if s.sid = sid ∧ s.onceAuthError then
        let p := match s.promise with
          | PromiseState.pending => PromiseState.rejected msg
          | q => q
        ({ w with auth := some { s with onceAuthError := false, timeoutPending := false, promise := p } }, [])
      else (w, [])

/-- A scheduled reconnect timer firing (lines 829-833): the callback calls
connect() and swallows its rejection. -/
def timerFireStep (w : World) (tid : Nat) : World × List Emission :=
  if w.pendingTimers.any (fun p => p.1 == tid) then
    let w1 : World := { w with pendingTimers := w.pendingTimers.filter (fun p => p.1 != tid) }
    connect w1
  else (w, [])

/-- One step of the machine.  Server events are delivered only on a live
socket: a transport that failed, disconnected or was torn down emits
nothing further. -/
def step (w : World) : Action → World × List Emission
  | Action.connect => connect w
  | Action.disconnect => disconnect w
  | Action.srvConnected sid cid =>
      if sid ∈ w.liveTransports then onSrvConnected w cid else (w, [])
  | Action.srvConnectError sid msg =>
      if sid ∈ w.liveTransports then onSrvConnectError w sid msg else (w, [])
  | Action.srvDisconnect sid reason =>
      if sid ∈ w.liveTransports then onSrvDisconnect w sid reason else (w, [])
  | Action.srvError sid code msg =>
      if sid ∈ w.liveTransports then (w, [Emission.errorEv code msg]) else (w, [])
  | Action.timerFire tid => timerFireStep w tid
  | Action.authenticate wa => authenticateCall w wa
  | Action.srvAuthenticated sid x =>
      if sid ∈ w.liveTransports then onSrvAuthenticated w sid x else (w, [])
  | Action.srvAuthError sid m =>
      if sid ∈ w.liveTransports then onSrvAuthError w sid m else (w, [])
  | Action.authTimeoutFire => onAuthTimeout w

/-- Run a sequence of actions, accumulating the emitted logical events. -/
def run (w : World) : List Action → World × List Emission
  | [] => (w, [])
  | a :: rest =>
      let s := step w a
      let r := run s.1 rest
      (r.1, s.2 ++ r.2)

/-- A freshly constructed client instance (field initialisers, lines
378-383). -/
def initClient : HyperliquidClient :=
  { socket := none, state := ConnectionState.disconnected, reconnectAttempts := 0,
    reconnectTimer := none, authenticatedWallet := none }

/-- Initial world for a client constructed with the given options. -/
def initWorld (o : InternalOptions) : World :=
  { client := initClient, options := o, liveTransports := [],
    pendingTimers := [], nextId := 0, auth := none }

/-- The constructor defaults (lines 388-399) with the mainnet URL. -/
def optsDefault : InternalOptions :=
  { network := Network.mainnet, url := "wss://api.nylium.xyz",
    autoReconnect := true, reconnectDelay := 1000,
    maxReconnectAttempts := 10, debug := false }

/-- One outbound request message on the transport, from the socket emit
call sites of the public methods (payload shapes per section 6 of the
design). -/
inductive OutMsg where
  | subscribePriceMsg (asset : Option String)
  | getPricesMsg (assets : List String)
  | subscribeOrderbookMsg (asset : String)
  | subscribeTradesMsg (asset : String)
  | subscribeCandleMsg (coin interval : String)
  | unsubscribeMsg (room : String)
  | authenticateMsg (wallet : String)
  | getUserBalanceMsg
deriving DecidableEq, Repr

/-- private ensureConnected() (lines 836-840): throws unless a socket is
referenced and the state is connected.  Throwing is modelled by the error
side of Except, carrying the exception message. -/
def ensureConnected (c : HyperliquidClient) : Except String Unit :=
  if c.socket = none ∨ c.state ≠ ConnectionState.connected then
    Except.error "Not connected. Call connect() first."
  else Except.ok ()

/-- private ensureAuthenticated() (lines 842-846). -/
def ensureAuthenticated (c : HyperliquidClient) : Except String Unit :=
  if c.authenticatedWallet = none then
    Except.error "Not authenticated. Call authenticate(wallet) first."
  else Except.ok ()

/-- subscribePrices(asset?) (lines 504-508): guard, then one
subscribe:price message whose payload has the asset field only when one
was given.  The result lists the transport messages the call sends. -/
def subscribePrices (c : HyperliquidClient) (asset : Option String) :
    Except String (List OutMsg) :=
  match ensureConnected c with
  | Except.error e => Except.error e
  | Except.ok _ => Except.ok [OutMsg.subscribePriceMsg asset]

/-- getPrices(assets) (lines 514-517). -/
def getPrices (c : HyperliquidClient) (assets : List String) :
    Except String (List OutMsg) :=
  match ensureConnected c with
  | Except.error e => Except.error e
  | Except.ok _ => Except.ok [OutMsg.getPricesMsg assets]

/-- subscribeOrderBook(asset) (lines 527-531). -/
def subscribeOrderBook (c : HyperliquidClient) (asset : String) :
    Except String (List OutMsg) :=
  match ensureConnected c with
  | Except.error e => Except.error e
  | Except.ok _ => Except.ok [OutMsg.subscribeOrderbookMsg asset]

/-- subscribeTrades(asset) (lines 541-545). -/
def subscribeTrades (c : HyperliquidClient) (asset : String) :
    Except String (List OutMsg) :=
  match ensureConnected c with
  | Except.error e => Except.error e
  | Except.ok _ => Except.ok [OutMsg.subscribeTradesMsg asset]

/-- subscribeCandles(asset, interval) (lines 556-560). -/
def subscribeCandles (c : HyperliquidClient) (asset interval : String) :
    Except String (List OutMsg) :=
  match ensureConnected c with
  | Except.error e => Except.error e
  | Except.ok _ => Except.ok [OutMsg.subscribeCandleMsg asset interval]

/-- unsubscribe(room) (lines 624-628). -/
def unsubscribe (c : HyperliquidClient) (room : String) :
    Except String (List OutMsg) :=
  match ensureConnected c with
  | Except.error e => Except.error e
  | Except.ok _ => Except.ok [OutMsg.unsubscribeMsg room]

/-- authenticate(wallet) (lines 570-593), request phase as seen by the
caller: the guard runs first; on success the single authenticate message
is sent.  The async method surfaces the guard failure as a rejection of
the returned promise. -/
def authenticate (c : HyperliquidClient) (wallet : String) :
    Except String (List OutMsg) :=
  match ensureConnected c with
  | Except.error e => Except.error e
  | Except.ok _ => Except.ok [OutMsg.authenticateMsg wallet]

/-- getBalance() (lines 598-607), request phase: both guards run before
the get:userBalance request is sent. -/
def getBalance (c : HyperliquidClient) : Except String (List OutMsg) :=
  match ensureConnected c with
  | Except.error e => Except.error e
  | Except.ok _ =>
      match ensureAuthenticated c with
      | Except.error e => Except.error e
      | Except.ok _ => Except.ok [OutMsg.getUserBalanceMsg]

/-- Invocation of one registered handler under the try/catch of the emit
loop (lines 767-773): a throwing handler yields its logged message, a
normal one yields nothing; the exception never escapes. -/
def runHandler {P : Type} (h : P → Except String Unit) (d : P) : Option String :=
  match h d with
  | Except.ok _ => none
  | Except.error e => some e

/-- The handlers.forEach loop of emit (lines 767-773): every handler in
registration order is invoked, each under its own try/catch. -/
def deliverToHandlers {P : Type} (hs : List (P → Except String Unit)) (d : P) :
    List (Option String) :=
  match hs with
  | [] => []
  | h :: rest => runHandler h d :: deliverToHandlers rest d

/-- private emit(event, data) (lines 764-775): looks the event up in the
handler registry (eventHandlers map) and delivers the payload to every
registered handler; the registry itself is returned unchanged alongside
the per-handler logged outcomes. -/
def emitEvent {P : Type} (registry : List (String × List (P → Except String Unit)))
    (event : String) (d : P) :
    List (String × List (P → Except String Unit)) × List (Option String) :=
  match registry.lookup event with
  | none => (registry, [])
  | some hs => (registry, deliverToHandlers hs d)

/-- The four price listeners installed by setupDataListeners (lines
670-681).  The payload types are abstract: P for the arrays carried by the
prices messages, Q for the single records carried by the price messages. -/
inductive PriceMsg (P Q : Type) where
  | pricesSnapshot (prices : P)
  | pricesUpdate (prices : P)
  | priceSnapshot (price : Q)
  | priceUpdate (price : Q)

/-- A logical event emitted by one of the four price listeners. -/
inductive PriceEmit (P Q : Type) where
  | prices (data : P)
  | price (data : Q)
deriving DecidableEq

/-- Dispatch of one incoming price message, exactly as the four listener
bodies: both array messages re-emit the payload unchanged as a prices
event, both single messages as a price event. -/
def dispatchPriceMsg {P Q : Type} : PriceMsg P Q → PriceEmit P Q
  | PriceMsg.pricesSnapshot ps => PriceEmit.prices ps
  | PriceMsg.pricesUpdate ps => PriceEmit.prices ps
  | PriceMsg.priceSnapshot p => PriceEmit.price p
  | PriceMsg.priceUpdate p => PriceEmit.price p

/-- A stream of incoming price messages produces one logical event per
message, in arrival order. -/
def processPriceMsgs {P Q : Type} (ms : List (PriceMsg P Q)) : List (PriceEmit P Q) :=
  ms.map dispatchPriceMsg

/-- The single-transport invariant: the manager references at most one
live transport, every live transport is the referenced one, and a live
transport exists only while the client is connecting or connected. -/
def Inv (w : World) : Prop :=
  w.liveTransports.length ≤ 1 ∧
  ∀ sid ∈ w.liveTransports,
    w.client.socket = some sid ∧
      (w.client.state = ConnectionState.connecting ∨
       w.client.state = ConnectionState.connected)

instance (w : World) : Decidable (Inv w) := by
  unfold Inv
  infer_instance

/-- Options with auto reconnect disabled. -/
def optsNoReconnect : InternalOptions := { optsDefault with autoReconnect := false }

/-- Options with a single allowed reconnect attempt. -/
def optsMax1 : InternalOptions := { optsDefault with maxReconnectAttempts := 1 }

/-- A run that exhausts the single allowed reconnect attempt: the first
transport fails, the scheduled retry is spent on a second transport that
also fails, settling the client in state error with the counter at the
maximum. -/
def wErr : World :=
  (run (initWorld optsMax1)
    [Action.connect, Action.srvConnectError 0 "connection refused",
     Action.timerFire 1, Action.srvConnectError 2 "connection refused"]).1

/-- The exhausting run above continued with an explicit connect call. -/
def actsErrThenConnect : List Action :=
  [Action.connect, Action.srvConnectError 0 "connection refused",
   Action.timerFire 1, Action.srvConnectError 2 "connection refused",
   Action.connect]

/-- A connect-authenticate-drop run: the server ack arrives, a handshake
succeeds, then the transport drops on its own (no explicit disconnect
call). -/
def actsAuthThenDrop : List Action :=
  [Action.connect, Action.srvConnected 0 "c1", Action.authenticate "0xabc",
   Action.srvAuthenticated 0 "0xabc", Action.srvDisconnect 0 "transport close"]

/-- A world whose client has already spent two reconnect attempts, about
to schedule attempt three. -/
def wAtt2 : World :=
  { initWorld optsDefault with client := { initClient with reconnectAttempts := 2 } }

/-- The handshake session as installed by the authenticate method on
socket sid: both one-shot listeners present, timeout pending, promise
pending. -/
def sessionPending (sid : Nat) : AuthSession :=
  { sid := sid, onceAuthenticated := true, onceAuthError := true,
    timeoutPending := true, promise := PromiseState.pending }

/-- The same session after the 10 second timeout fired: the promise is
rejected, but both one-shot listeners are still installed. -/
def sessionTimedOut (sid : Nat) : AuthSession :=
  { sid := sid, onceAuthenticated := true, onceAuthError := true,
    timeoutPending := false,
    promise := PromiseState.rejected "Authentication timeout" }

/-- History function: the wallet of the last successful-handshake emission
in the list, starting from a previous value.  An authenticated emission is
exactly a successful authenticate handshake (the only emit site for it is
the success listener of the authenticate method). -/
def updAuth (g : Option String) : List Emission → Option String
  | [] => g
  | e :: rest =>
      updAuth (match e with | Emission.authenticatedEv x => some x | _ => g) rest

/-- Specification of the authenticated identity after one step: an
explicit disconnect call clears it; otherwise it is the wallet of the last
successful handshake of this step, if any, else the previous value. -/
def specStep (g : Option String) (a : Action) (ems : List Emission) : Option String :=
  match a with
  | Action.disconnect => none
  | _ => updAuth g ems

/-- Specification of the authenticated identity along a run: the wallet of
the last successful authenticate handshake since the most recent explicit
disconnect call, if any. -/
def specWallet (g : Option String) (w : World) : List Action → Option String
  | [] => g
  | a :: rest =>
      let s := step w a
      specWallet (specStep g a s.2) s.1 rest

theorem Inv_of_no_live (w : World) (h : w.liveTransports = []) : Inv w := by
  constructor
  · simp [h]
  · intro sid hsid
    rw [h] at hsid
    cases hsid

theorem mem_length_le_one {a : Nat} {l : List Nat} (hlen : l.length ≤ 1) (ha : a ∈ l) :
    l = [a] := by
  cases l with
  | nil => cases ha
  | cons x xs =>
    have hx : xs = [] := by
      cases xs with
      | nil => rfl
      | cons y ys => simp at hlen
    subst hx
    simp at ha
    simp [ha]

theorem live_nil_of_state (w : World) (h : Inv w)
    (hs : ¬(w.client.state = ConnectionState.connected ∨
            w.client.state = ConnectionState.connecting)) :
    w.liveTransports = [] := by
  rcases h with ⟨_, hmem⟩
  cases hl : w.liveTransports with
  | nil => rfl
  | cons x xs =>
    rcases hmem x (by rw [hl]; exact List.mem_cons_self x xs) with ⟨_, hstate⟩
    exact absurd (hstate.elim Or.inr Or.inl) hs

theorem inv_transfer (w v : World) (h : Inv w)
    (hl : v.liveTransports = w.liveTransports)
    (hs : v.client.socket = w.client.socket)
    (hst : v.client.state = w.client.state) : Inv v := by
  rcases h with ⟨hlen, hmem⟩
  constructor
  · rw [hl]; exact hlen
  · intro sid hsid
    rw [hl] at hsid
    rcases hmem sid hsid with ⟨h1, h2⟩
    rw [hs, hst]
    exact ⟨h1, h2⟩

theorem scheduleReconnect_live (w : World) :
    (scheduleReconnect w).1.liveTransports = w.liveTransports := by
  unfold scheduleReconnect setState
  split <;> rfl

theorem handleConnectionError_live (w : World) (msg : String) :
    (handleConnectionError w msg).1.liveTransports = w.liveTransports := by
  unfold handleConnectionError setState
  split
  · exact scheduleReconnect_live w
  · rfl

theorem handleDisconnect_live (w : World) (reason : String) :
    (handleDisconnect w reason).1.liveTransports = w.liveTransports := by
  simp only [handleDisconnect, setState]
  split
  · exact scheduleReconnect_live _
  · rfl

theorem inv_connect (w : World) (h : Inv w) : Inv (connect w).1 := by
  by_cases hc : w.client.state = ConnectionState.connected ∨
      w.client.state = ConnectionState.connecting
  · simp only [connect, if_pos hc]
    exact h
  · have hnil := live_nil_of_state w h hc
    simp only [connect, if_neg hc, setState]
    constructor
    · simp [hnil]
    · intro sid hsid
      simp [hnil] at hsid
      subst hsid
      exact ⟨rfl, Or.inl rfl⟩

theorem disconnect_live (w : World) (h : Inv w) :
    (disconnect w).1.liveTransports = [] := by
  rcases h with ⟨hlen, hmem⟩
  unfold disconnect setState
  cases ht : w.client.reconnectTimer <;>
  cases hsock : w.client.socket with
  | none =>
      simp only
      cases hl : w.liveTransports with
      | nil => simp [ht, hsock, hl]
      | cons x xs =>
          rcases hmem x (by rw [hl]; exact List.mem_cons_self x xs) with ⟨hx, _⟩
          rw [hsock] at hx
          cases hx
  | some sid =>
      simp only
      have hall : ∀ t ∈ w.liveTransports, ¬((t != sid) = true) := by
        intro t htmem
        rcases hmem t htmem with ⟨hx, _⟩
        rw [hsock] at hx
        have : t = sid := by injection hx.symm
        simp [this]
      simp [ht, hsock, List.filter_eq_nil_iff.mpr hall]

theorem inv_disconnect (w : World) (h : Inv w) : Inv (disconnect w).1 :=
  Inv_of_no_live _ (disconnect_live w h)

theorem inv_onSrvConnected (w : World) (h : Inv w) (cid : String) :
    Inv (onSrvConnected w cid).1 := by
  rcases h with ⟨hlen, hmem⟩
  constructor
  · simpa [onSrvConnected, setState] using hlen
  · intro sid hsid
    simp only [onSrvConnected, setState] at hsid ⊢
    rcases hmem sid hsid with ⟨hsock, _⟩
    refine ⟨hsock, Or.inr ?_⟩
    simp

theorem inv_onSrvConnectError (w : World) (h : Inv w) (sid : Nat) (msg : String)
    (hs : sid ∈ w.liveTransports) : Inv (onSrvConnectError w sid msg).1 := by
  apply Inv_of_no_live
  rw [onSrvConnectError, handleConnectionError_live]
  have hsingle := mem_length_le_one h.1 hs
  simp [hsingle]

theorem inv_onSrvDisconnect (w : World) (h : Inv w) (sid : Nat) (reason : String)
    (hs : sid ∈ w.liveTransports) : Inv (onSrvDisconnect w sid reason).1 := by
  apply Inv_of_no_live
  rw [onSrvDisconnect, handleDisconnect_live]
  have hsingle := mem_length_le_one h.1 hs
  simp [hsingle]

theorem inv_timerFire (w : World) (h : Inv w) (tid : Nat) :
    Inv (timerFireStep w tid).1 := by
  unfold timerFireStep
  split
  · exact inv_connect _ h
  · exact h

theorem inv_authenticateCall (w : World) (h : Inv w) (wa : String) :
    Inv (authenticateCall w wa).1 := by
  apply inv_transfer w _ h <;>
  · unfold authenticateCall
    cases hsock : w.client.socket with
    | none => simp [hsock]
    | some sid =>
        by_cases hst : w.client.state = ConnectionState.connected <;>
          cases hauth : w.auth <;> simp [hsock, hst, hauth]

theorem inv_onAuthTimeout (w : World) (h : Inv w) : Inv (onAuthTimeout w).1 := by
  apply inv_transfer w _ h <;>
  · unfold onAuthTimeout
    cases hauth : w.auth with
    | none => simp [hauth]
    | some s => cases htp : s.timeoutPending <;> simp [hauth, htp]

theorem inv_onSrvAuthenticated (w : World) (h : Inv w) (sid : Nat) (x : String) :
    Inv (onSrvAuthenticated w sid x).1 := by
  apply inv_transfer w _ h <;>
  · unfold onSrvAuthenticated
    cases hauth : w.auth with
    | none => simp [hauth]
    | some s =>
        by_cases hc : (s.sid = sid ∧ s.onceAuthenticated = true) <;> simp [hauth, hc]

theorem inv_onSrvAuthError (w : World) (h : Inv w) (sid : Nat) (m : String) :
    Inv (onSrvAuthError w sid m).1 := by
  apply inv_transfer w _ h <;>
  · unfold onSrvAuthError
    cases hauth : w.auth with
    | none => simp [hauth]
    | some s =>
        by_cases hc : (s.sid = sid ∧ s.onceAuthError = true) <;> simp [hauth, hc]

theorem inv_step (w : World) (h : Inv w) (a : Action) : Inv (step w a).1 := by
  cases a with
  | connect => exact inv_connect w h
  | disconnect => exact inv_disconnect w h
  | srvConnected sid cid =>
      simp only [step]
      split
      · exact inv_onSrvConnected w h cid
      · exact h
  | srvConnectError sid msg =>
      simp only [step]
      split
      · next hs => exact inv_onSrvConnectError w h sid msg hs
      · exact h
  | srvDisconnect sid reason =>
      simp only [step]
      split
      · next hs => exact inv_onSrvDisconnect w h sid reason hs
      · exact h
  | srvError sid code msg =>
      simp only [step]
      split <;> exact h
  | timerFire tid => exact inv_timerFire w h tid
  | authenticate wa => exact inv_authenticateCall w h wa
  | srvAuthenticated sid x =>
      simp only [step]
      split
      · exact inv_onSrvAuthenticated w h sid x
      · exact h
  | srvAuthError sid m =>
      simp only [step]
      split
      · exact inv_onSrvAuthError w h sid m
      · exact h
  | authTimeoutFire => exact inv_onAuthTimeout w h

theorem inv_run (acts : List Action) : ∀ (w : World), Inv w → Inv (run w acts).1 := by
  induction acts with
  | nil => intro w h; exact h
  | cons a rest ih =>
      intro w h
      exact ih _ (inv_step w h a)

theorem inv_init (o : InternalOptions) : Inv (initWorld o) :=
  Inv_of_no_live _ rfl

theorem updAuth_append (g : Option String) (xs ys : List Emission) :
    updAuth g (xs ++ ys) = updAuth (updAuth g xs) ys := by
  induction xs generalizing g with
  | nil => rfl
  | cons e rest ih => simp [updAuth, ih]

theorem scheduleReconnect_walletSpec (w : World) :
    (scheduleReconnect w).1.client.authenticatedWallet =
      updAuth w.client.authenticatedWallet (scheduleReconnect w).2 := by
  unfold scheduleReconnect setState
  split <;> rfl

theorem handleConnectionError_walletSpec (w : World) (msg : String) :
    (handleConnectionError w msg).1.client.authenticatedWallet =
      updAuth w.client.authenticatedWallet (handleConnectionError w msg).2 := by
  unfold handleConnectionError
  split
  · have h := scheduleReconnect_walletSpec w
    simpa [updAuth] using h
  · rfl

theorem handleDisconnect_walletSpec (w : World) (reason : String) :
    (handleDisconnect w reason).1.client.authenticatedWallet =
      updAuth w.client.authenticatedWallet (handleDisconnect w reason).2 := by
  simp only [handleDisconnect, setState]
  split
  · have h := scheduleReconnect_walletSpec
      ({ w with client := { w.client with state := ConnectionState.disconnected } })
    simpa [updAuth] using h
  · rfl

theorem connect_walletSpec (w : World) :
    (connect w).1.client.authenticatedWallet =
      updAuth w.client.authenticatedWallet (connect w).2 := by
  unfold connect setState
  split <;> rfl

/-- The client-side authenticated wallet changes exactly as the history
function prescribes, on every single step. -/
theorem step_wallet (w : World) (a : Action) :
    (step w a).1.client.authenticatedWallet =
      specStep w.client.authenticatedWallet a (step w a).2 := by
  cases a with
  | connect =>
      simpa [step, specStep] using connect_walletSpec w
  | disconnect =>
      unfold step disconnect setState specStep
      cases ht : w.client.reconnectTimer <;> cases hsock : w.client.socket <;>
        simp [ht, hsock]
  | srvConnected sid cid =>
      simp only [step, specStep]
      split
      · simp [onSrvConnected, setState, updAuth]
      · rfl
  | srvConnectError sid msg =>
      simp only [step, specStep]
      split
      · simpa using handleConnectionError_walletSpec
          ({ w with liveTransports := w.liveTransports.filter (fun t => t != sid) }) msg
      · rfl
  | srvDisconnect sid reason =>
      simp only [step, specStep]
      split
      · simpa using handleDisconnect_walletSpec
          ({ w with liveTransports := w.liveTransports.filter (fun t => t != sid) }) reason
      · rfl
  | srvError sid code msg =>
      simp only [step, specStep]
      split <;> rfl
  | timerFire tid =>
      simp only [step, timerFireStep, specStep]
      split
      · simpa using connect_walletSpec
          ({ w with pendingTimers := w.pendingTimers.filter (fun p => p.1 != tid) })
      · rfl
  | authenticate wa =>
      simp only [step, specStep]
      unfold authenticateCall
      cases hsock : w.client.socket with
      | none => simp [updAuth]
      | some sid =>
          by_cases hst : w.client.state = ConnectionState.connected <;>
            cases hauth : w.auth <;> simp [hsock, hst, hauth, updAuth]
  | srvAuthenticated sid x =>
      simp only [step, specStep]
      split
      · unfold onSrvAuthenticated
        cases hauth : w.auth with
        | none => simp [hauth, updAuth]
        | some s =>
            by_cases hc : (s.sid = sid ∧ s.onceAuthenticated = true) <;>
              simp [hauth, hc, updAuth]
      · rfl
  | srvAuthError sid m =>
      simp only [step, specStep]
      split
      · unfold onSrvAuthError
        cases hauth : w.auth with
        | none => simp [hauth, updAuth]
        | some s =>
            by_cases hc : (s.sid = sid ∧ s.onceAuthError = true) <;>
              simp [hauth, hc, updAuth]
      · rfl
  | authTimeoutFire =>
      simp only [step, specStep]
      unfold onAuthTimeout
      cases hauth : w.auth with
      | none => simp [hauth, updAuth]
      | some s => cases htp : s.timeoutPending <;> simp [hauth, htp, updAuth]

/-- Along any run, the authenticated wallet field equals the history
function of the emitted events and the explicit disconnect calls. -/
theorem run_wallet (acts : List Action) : ∀ (w : World),
    (run w acts).1.client.authenticatedWallet =
      specWallet w.client.authenticatedWallet w acts := by
  induction acts with
  | nil => intro w; rfl
  | cons a rest ih =>
      intro w
      show (run (step w a).1 rest).1.client.authenticatedWallet = _
      rw [ih (step w a).1, specWallet, step_wallet]

theorem disconnect_clears (w : World) :
    (disconnect w).1.client.reconnectTimer = none ∧
    (disconnect w).1.client.socket = none ∧
    (disconnect w).1.client.state = ConnectionState.disconnected ∧
    (disconnect w).1.client.authenticatedWallet = none := by
  unfold disconnect setState
  cases ht : w.client.reconnectTimer <;> cases hsock : w.client.socket <;>
    simp [ht, hsock]

theorem disconnect_fixed (w : World)
    (ht : w.client.reconnectTimer = none)
    (hsock : w.client.socket = none)
    (hst : w.client.state = ConnectionState.disconnected)
    (hw : w.client.authenticatedWallet = none) :
    disconnect w = (w, [Emission.stateChange ConnectionState.disconnected]) := by
  rcases w with ⟨⟨sock, st, ra, rt, aw⟩, opts, lt, pt, ni, au⟩
  simp only at ht hsock hst hw
  subst ht; subst hsock; subst hst; subst hw
  rfl

theorem deliverToHandlers_eq_map {P : Type} (hs : List (P → Except String Unit)) (d : P) :
    deliverToHandlers hs d = hs.map (fun h => runHandler h d) := by
  induction hs with
  | nil => rfl
  | cons h rest ih => simp [deliverToHandlers, ih]

theorem error_state_no_live (w : World) (h : Inv w)
    (hst : w.client.state = ConnectionState.error) :
    w.liveTransports = [] := by
  apply live_nil_of_state w h
  rw [hst]
  simp

theorem step_srvConnected (w : World) (sid : Nat) (cid : String)
    (hs : sid ∈ w.liveTransports) :
    step w (Action.srvConnected sid cid) =
      ({ w with client := { w.client with
            state := ConnectionState.connected, reconnectAttempts := 0 } },
       [Emission.stateChange ConnectionState.connected, Emission.connectedEv cid]) := by
  simp only [step]
  rw [if_pos hs]
  rfl

theorem connect_noop (w : World)
    (hc : w.client.state = ConnectionState.connected ∨
          w.client.state = ConnectionState.connecting) :
    connect w = (w, []) := by
  unfold connect
  rw [if_pos hc]

/-- C1: for every sequence of actions on a fresh client (connect and
disconnect calls included), at most one transport is live at any time and
every live transport is the one referenced by the socket field; moreover a
connect call made while the state is connected or connecting returns
immediately (the early return of the method resolves the promise), leaves
the world untouched and opens no transport. -/
theorem connect_single_transport :
    (∀ (o : InternalOptions) (acts : List Action),
      (run (initWorld o) acts).1.liveTransports.length ≤ 1 ∧
      ∀ sid ∈ (run (initWorld o) acts).1.liveTransports,
        (run (initWorld o) acts).1.client.socket = some sid) ∧
    (∀ (w : World), w.client.state = ConnectionState.connected ∨
        w.client.state = ConnectionState.connecting → connect w = (w, [])) := by
  constructor
  · intro o acts
    have h := inv_run acts (initWorld o) (inv_init o)
    exact ⟨h.1, fun sid hs => (h.2 sid hs).1⟩
  · exact connect_noop

/-- C1 witness: after one connect call the single live transport is the
referenced one, and a connect call in the connected state is a no-op. -/
theorem connect_single_transport_witness :
    (run (initWorld optsDefault) [Action.connect]).1.client.socket = some 0 ∧
    connect (run (initWorld optsDefault) [Action.connect, Action.srvConnected 0 "abc"]).1 =
      ((run (initWorld optsDefault) [Action.connect, Action.srvConnected 0 "abc"]).1, []) := by
  constructor
  · exact (connect_single_transport.1 optsDefault [Action.connect]).2 0 (by decide)
  · exact connect_single_transport.2 _ (by decide)

/-- C2 counterexample: connect, receive the ack, authenticate successfully,
then suffer a transport-level disconnect (reason transport close, not an
explicit disconnect call).  The emitted trace ends with the disconnected
event, so no handshake succeeded since that disconnect, yet the
authenticated wallet is still set: the claimed iff fails because
handleDisconnect does not clear the wallet. -/
theorem wallet_survives_transport_disconnect_cex :
    (run (initWorld optsNoReconnect) actsAuthThenDrop).1.client.authenticatedWallet =
      some "0xabc" ∧
    (run (initWorld optsNoReconnect) actsAuthThenDrop).2 =
      [Emission.stateChange ConnectionState.connecting,
       Emission.stateChange ConnectionState.connected,
       Emission.connectedEv "c1",
       Emission.authenticatedEv "0xabc",
       Emission.stateChange ConnectionState.disconnected,
       Emission.disconnectedEv "transport close"] := by
  decide

/-- C2 amended: in every reachable state, the authenticated wallet equals
the wallet of the last successful authenticate handshake since the most
recent explicit disconnect call; transport-level disconnects do not clear
it. -/
theorem wallet_iff_handshake_since_explicit_disconnect :
    ∀ (o : InternalOptions) (acts : List Action),
      (run (initWorld o) acts).1.client.authenticatedWallet =
        specWallet none (initWorld o) acts :=
  fun o acts => run_wallet acts (initWorld o)

/-- C3: a second disconnect call right after a first one leaves the whole
world unchanged and emits only the stateChange notification of setState;
in particular none of the connected, disconnected, error or reconnecting
lifecycle events fires again.  The call is a total function of the model,
matching the absence of any throw site in the method body. -/
theorem disconnect_twice_idempotent : ∀ (w : World),
    disconnect (disconnect w).1 =
      ((disconnect w).1, [Emission.stateChange ConnectionState.disconnected]) := by
  intro w
  obtain ⟨h1, h2, h3, h4⟩ := disconnect_clears w
  exact disconnect_fixed _ h1 h2 h3 h4

/-- C4 counterexample: the ack carrying client identifier abc makes the
client emit the connected event whose payload is the ack passed through
unchanged: it carries the identifier and nothing else.  No timestamp is
constructed anywhere in the handler (lines 432-438), refuting the claim
that the payload carries both an identifier and a timestamp. -/
theorem connected_event_payload_cex :
    (run (initWorld optsDefault) [Action.connect, Action.srvConnected 0 "abc"]).2 =
      [Emission.stateChange ConnectionState.connecting,
       Emission.stateChange ConnectionState.connected,
       Emission.connectedEv "abc"] := by
  decide

/-- C4 amended: on receipt of the server ack while connecting, the manager
transitions to connected, resets the reconnect attempt counter to 0, and
emits a connected event whose payload is the ack passed through unchanged,
carrying the client identifier (a timestamp is present only if the server
includes one; the client adds none). -/
theorem connected_ack_transition (w : World) (sid : Nat) (cid : String)
    (hs : sid ∈ w.liveTransports)
    (_hst : w.client.state = ConnectionState.connecting) :
    step w (Action.srvConnected sid cid) =
      ({ w with client := { w.client with
            state := ConnectionState.connected, reconnectAttempts := 0 } },
       [Emission.stateChange ConnectionState.connected, Emission.connectedEv cid]) :=
  step_srvConnected w sid cid hs

/-- C4 witness: the ack transition at a concrete connecting world. -/
theorem connected_ack_transition_witness :
    (step (run (initWorld optsDefault) [Action.connect]).1
        (Action.srvConnected 0 "abc")).1.client.state = ConnectionState.connected ∧
    (step (run (initWorld optsDefault) [Action.connect]).1
        (Action.srvConnected 0 "abc")).1.client.reconnectAttempts = 0 ∧
    (step (run (initWorld optsDefault) [Action.connect]).1
        (Action.srvConnected 0 "abc")).2 =
      [Emission.stateChange ConnectionState.connected, Emission.connectedEv "abc"] := by
  have h := connected_ack_transition (run (initWorld optsDefault) [Action.connect]).1
    0 "abc" (by decide) (by decide)
  rw [h]
  exact ⟨rfl, rfl, rfl⟩

/-- C5 counterexample: with one allowed reconnect attempt, two transport
failures exhaust the policy and settle the client in state error with the
counter at 1.  The caller then explicitly calls connect: the state
re-enters connecting, but the reconnect attempt counter is still 1, not 0,
refuting the claim that the explicit connect call resets the counter (the
code resets it only in the ack listener). -/
theorem error_connect_counter_not_reset_cex :
    (run (initWorld optsMax1) actsErrThenConnect).1.client.state =
      ConnectionState.connecting ∧
    (run (initWorld optsMax1) actsErrThenConnect).1.client.reconnectAttempts = 1 := by
  decide

/-- C5 amended: once reconnect attempts are exhausted the client sits in
state error; no server or transport event moves it (all transports are
dead, so server events are not delivered, and the authentication timeout
does not touch the state); the state changes only when connect runs again
or the caller calls disconnect.  A connect call from state error re-enters
connecting without resetting the attempt counter; the counter is reset to
0 only by a subsequent server ack. -/
theorem error_terminal_behavior (w : World) (hInv : Inv w)
    (hst : w.client.state = ConnectionState.error) :
    (∀ sid cid, step w (Action.srvConnected sid cid) = (w, [])) ∧
    (∀ sid msg, step w (Action.srvConnectError sid msg) = (w, [])) ∧
    (∀ sid reason, step w (Action.srvDisconnect sid reason) = (w, [])) ∧
    (∀ sid code msg, step w (Action.srvError sid code msg) = (w, [])) ∧
    (∀ sid x, step w (Action.srvAuthenticated sid x) = (w, [])) ∧
    (∀ sid m, step w (Action.srvAuthError sid m) = (w, [])) ∧
    (∀ wa, step w (Action.authenticate wa) = (w, [])) ∧
    (step w Action.authTimeoutFire).1.client.state = ConnectionState.error ∧
    (step w Action.connect).1.client.state = ConnectionState.connecting ∧
    (step w Action.connect).1.client.reconnectAttempts = w.client.reconnectAttempts ∧
    (∀ (v : World) (sid : Nat) (cid : String), sid ∈ v.liveTransports →
      (step v (Action.srvConnected sid cid)).1.client.reconnectAttempts = 0) := by
  have hlive := error_state_no_live w hInv hst
  have hnoc : ¬ (w.client.state = ConnectionState.connected ∨
      w.client.state = ConnectionState.connecting) := by
    rw [hst]; simp
  refine ⟨?_, ?_, ?_, ?_, ?_, ?_, ?_, ?_, ?_, ?_, ?_⟩
  · intro sid cid; simp [step, hlive]
  · intro sid msg; simp [step, hlive]
  · intro sid reason; simp [step, hlive]
  · intro sid code msg; simp [step, hlive]
  · intro sid x; simp [step, hlive]
  · intro sid m; simp [step, hlive]
  · intro wa
    cases hsock : w.client.socket with
    | none => simp [step, authenticateCall, hsock]
    | some sid => simp [step, authenticateCall, hsock, hst]
  · unfold step onAuthTimeout
    cases hauth : w.auth with
    | none => simpa using hst
    | some s => cases htp : s.timeoutPending <;> simp [htp, hst]
  · unfold step connect setState
    rw [if_neg hnoc]
  · unfold step connect setState
    rw [if_neg hnoc]
  · intro v sid cid hs
    rw [step_srvConnected v sid cid hs]

/-- C5 witness: at the concrete exhausted world, a late transport
disconnect is not delivered and an explicit connect re-enters connecting
with the counter untouched. -/
theorem error_terminal_behavior_witness :
    step wErr (Action.srvDisconnect 2 "transport close") = (wErr, []) ∧
    (step wErr Action.connect).1.client.state = ConnectionState.connecting ∧
    (step wErr Action.connect).1.client.reconnectAttempts = wErr.client.reconnectAttempts := by
  obtain ⟨h1, h2, h3, h4, h5, h6, h7, h8, h9, h10, h11⟩ :=
    error_terminal_behavior wErr (by decide) (by decide)
  exact ⟨h3 2 "transport close", h9, h10⟩

/-- C6: the reconnect policy.  When the incremented attempt count k stays
within the maximum, the scheduled timer delay is exactly
reconnectDelay * (3/2) ^ (k-1), the counter becomes k, the state becomes
reconnecting and a reconnecting event with attempt and maximum fires;
when the incremented count exceeds the maximum, no timer is scheduled
(the pending timers and the timer field are untouched), the state settles
to error and the terminal MAX_RECONNECT_ATTEMPTS error event fires. -/
theorem reconnect_backoff_schedule (w : World) :
    (∀ k, k = w.client.reconnectAttempts + 1 → k ≤ w.options.maxReconnectAttempts →
      (scheduleReconnect w).1.pendingTimers =
        (w.nextId, w.options.reconnectDelay * (3 / 2 : ℚ) ^ (k - 1)) :: w.pendingTimers ∧
      (scheduleReconnect w).1.client.reconnectAttempts = k ∧
      (scheduleReconnect w).1.client.state = ConnectionState.reconnecting ∧
      (scheduleReconnect w).2 =
        [Emission.stateChange ConnectionState.reconnecting,
         Emission.reconnectingEv k w.options.maxReconnectAttempts]) ∧
    (w.options.maxReconnectAttempts < w.client.reconnectAttempts + 1 →
      (scheduleReconnect w).1.pendingTimers = w.pendingTimers ∧
      (scheduleReconnect w).1.client.reconnectTimer = w.client.reconnectTimer ∧
      (scheduleReconnect w).1.client.state = ConnectionState.error ∧
      (scheduleReconnect w).2 =
        [Emission.stateChange ConnectionState.error,
         Emission.errorEv "MAX_RECONNECT_ATTEMPTS"
           "Maximum reconnection attempts reached"]) := by
  constructor
  · rintro k rfl hk
    have hlt : ¬ (w.options.maxReconnectAttempts ≤ w.client.reconnectAttempts) := by
      omega
    unfold scheduleReconnect setState
    rw [if_neg hlt]
    simp
  · intro hge
    have hle : w.options.maxReconnectAttempts ≤ w.client.reconnectAttempts := by omega
    unfold scheduleReconnect setState
    rw [if_pos hle]
    simp

/-- C6 witness: base delay 1000 and two attempts already spent give, for
attempt 3, the exact delay 1000 * (3/2)^2 = 2250 claimed by the spec. -/
theorem reconnect_backoff_schedule_witness :
    (scheduleReconnect wAtt2).1.pendingTimers = [(0, (2250 : ℚ))] ∧
    (scheduleReconnect wAtt2).2 =
      [Emission.stateChange ConnectionState.reconnecting,
       Emission.reconnectingEv 3 10] := by
  have h := (reconnect_backoff_schedule wAtt2).1 3 (by decide) (by decide)
  refine ⟨?_, h.2.2.2⟩
  rw [h.1]
  show (0, (1000 : ℚ) * (3 / 2 : ℚ) ^ 2) :: ([] : List (Nat × ℚ)) = [(0, (2250 : ℚ))]
  norm_num

/-- C7: every connected-only method invoked while the state is not
connected fails with the not-connected precondition error of
ensureConnected, surfaced to the immediate caller (as a synchronous throw
for the void methods, as a rejection of the returned promise for the async
authenticate and getBalance), and sends no transport message: the error
result carries no outbound message list. -/
theorem connected_only_methods_guard (c : HyperliquidClient)
    (h : c.state ≠ ConnectionState.connected) :
    (∀ asset, subscribePrices c asset =
      Except.error "Not connected. Call connect() first.") ∧
    (∀ assets, getPrices c assets =
      Except.error "Not connected. Call connect() first.") ∧
    (∀ asset, subscribeOrderBook c asset =
      Except.error "Not connected. Call connect() first.") ∧
    (∀ asset, subscribeTrades c asset =
      Except.error "Not connected. Call connect() first.") ∧
    (∀ asset interval, subscribeCandles c asset interval =
      Except.error "Not connected. Call connect() first.") ∧
    (∀ room, unsubscribe c room =
      Except.error "Not connected. Call connect() first.") ∧
    (∀ wallet, authenticate c wallet =
      Except.error "Not connected. Call connect() first.") ∧
    (getBalance c = Except.error "Not connected. Call connect() first.") := by
  have he : ensureConnected c = Except.error "Not connected. Call connect() first." := by
    unfold ensureConnected
    rw [if_pos (Or.inr h)]
  refine ⟨?_, ?_, ?_, ?_, ?_, ?_, ?_, ?_⟩ <;> intros <;>
    simp [subscribePrices, getPrices, subscribeOrderBook, subscribeTrades,
          subscribeCandles, unsubscribe, authenticate, getBalance, he]

/-- C7 witness: a fresh disconnected client rejects a subscription and the
balance request with the not-connected error. -/
theorem connected_only_methods_guard_witness :
    subscribePrices initClient none =
      Except.error "Not connected. Call connect() first." ∧
    getBalance initClient = Except.error "Not connected. Call connect() first." := by
  have h := connected_only_methods_guard initClient (by decide)
  exact ⟨h.1 none, h.2.2.2.2.2.2.2⟩

/-- C8: delivering an event to the registry invokes every handler
registered for that event exactly once, in registration order, each under
its own try/catch: a throwing handler contributes its logged message
(some) while every other handler still contributes its own outcome, the
delivery function is total (no exception escapes towards the transport
layer), and the registry comes back unchanged. -/
theorem emit_handler_isolation (P : Type)
    (registry : List (String × List (P → Except String Unit)))
    (event : String) (d : P) :
    emitEvent registry event d =
      (registry, ((registry.lookup event).getD []).map (fun h => runHandler h d)) := by
  unfold emitEvent
  cases hl : registry.lookup event with
  | none => simp
  | some hs => simp [deliverToHandlers_eq_map]

/-- C9: receiving a prices snapshot message and then a prices update
message produces exactly two logical events, both named prices, each
carrying its payload through unchanged. -/
theorem prices_snapshot_update_two_emissions (P Q : Type) (ps qs : P) :
    processPriceMsgs
        ([PriceMsg.pricesSnapshot ps, PriceMsg.pricesUpdate qs] : List (PriceMsg P Q)) =
      [PriceEmit.prices ps, PriceEmit.prices qs] := rfl

/-- C10: after authenticate installs its one-shot listeners and the 10
second timeout fires (rejecting the promise), the listeners are still
installed on the socket; a server authenticated message arriving
afterwards still sets the authenticated wallet and still emits the
authenticated event. -/
theorem auth_timeout_listeners_persist (w : World) (sid : Nat) (wa x : String)
    (hst : w.client.state = ConnectionState.connected)
    (hsock : w.client.socket = some sid)
    (hlive : sid ∈ w.liveTransports)
    (hauth : w.auth = none) :
    (step (step w (Action.authenticate wa)).1 Action.authTimeoutFire).1.auth =
      some (sessionTimedOut sid) ∧
    (step (step (step w (Action.authenticate wa)).1 Action.authTimeoutFire).1
        (Action.srvAuthenticated sid x)).1.client.authenticatedWallet = some x ∧
    (step (step (step w (Action.authenticate wa)).1 Action.authTimeoutFire).1
        (Action.srvAuthenticated sid x)).2 = [Emission.authenticatedEv x] := by
  have h1 : step w (Action.authenticate wa) =
      ({ w with auth := some (sessionPending sid) }, []) := by
    simp [step, authenticateCall, hsock, hst, hauth, sessionPending]
  rw [h1]
  have h2 : step ({ w with auth := some (sessionPending sid) } : World)
        Action.authTimeoutFire =
      ({ w with auth := some (sessionTimedOut sid) }, []) := by
    simp [step, onAuthTimeout, sessionPending, sessionTimedOut]
  rw [h2]
  refine ⟨rfl, ?_, ?_⟩ <;>
    simp [step, hlive, onSrvAuthenticated, sessionTimedOut]

/-- C10 witness: the concrete connected world after one connect and one
ack, a timed out handshake, then a late server authenticated message. -/
theorem auth_timeout_listeners_persist_witness :
    (step (step (step (run (initWorld optsDefault)
          [Action.connect, Action.srvConnected 0 "c1"]).1
        (Action.authenticate "0xabc")).1 Action.authTimeoutFire).1
        (Action.srvAuthenticated 0 "0xabc")).1.client.authenticatedWallet =
      some "0xabc" := by
  have h := auth_timeout_listeners_persist
    (run (initWorld optsDefault) [Action.connect, Action.srvConnected 0 "c1"]).1
    0 "0xabc" "0xabc" (by decide) (by decide) (by decide) (by decide)
  exact h.2.1

end Hyperliquid
